import Mathlib

/-!
Shallow embedding of the two subsystems of `src/src/terminal`:

* `ViInputHandler.cpp` — the modal vi-style input interpreter (namespace `Vi`);
* `RenderBufferBuilder.cpp` — the per-frame render-buffer compiler (namespace `RB`).

Pure C++ functions become Lean functions; the handler's mutable fields become an
explicit `ViState` threaded through every handler, and calls on the external
`Executor` interface become an emitted trace of `Action`s.  Machine integers are
`Nat`; `char32_t` code points are `Nat`; `std::optional` is `Option`.
-/

namespace Vi

/-- `ViMode` (ViInputHandler.h). -/
inductive ViMode
  | Normal
  | Insert
  | Visual
  | VisualLine
  | VisualBlock
deriving DecidableEq, Repr

/-- `SearchEditMode` (ViInputHandler.h). -/
inductive SearchEditMode
  | Disabled
  | Enabled
  | ExternallyEnabled
deriving DecidableEq, Repr

/-- `ViOperator` (ViInputHandler.h). -/
inductive ViOperator
  | MoveCursor
  | Yank
  | Paste
  | ReverseSearchCurrentWord
deriving DecidableEq, Repr

/-- `ViMotion` (ViInputHandler.h). -/
inductive ViMotion
  | CharLeft
  | CharRight
  | LineUp
  | LineDown
  | FileBegin
  | FileEnd
  | PageUp
  | PageDown
  | PageTop
  | PageBottom
  | LineBegin
  | LineTextBegin
  | LineEnd
  | WordForward
  | WordBackward
  | WordEndForward
  | ParagraphForward
  | ParagraphBackward
  | ParenthesisMatching
  | SearchResultForward
  | SearchResultBackward
  | ScreenColumn
  | FullLine
  | Selection
deriving DecidableEq, Repr

/-- `TextObjectScope` (ViInputHandler.h). -/
inductive TextObjectScope
  | Inner
  | A
deriving DecidableEq, Repr

/-- `TextObject` (ViInputHandler.h). -/
inductive TextObject
  | AngleBrackets
  | BackQuotes
  | CurlyBrackets
  | DoubleQuotes
  | Paragraph
  | RoundBrackets
  | SingleQuotes
  | SquareBrackets
  | Word
deriving DecidableEq, Repr

/-- Keyboard keys routed by `sendKeyPressEvent` (`Key`, InputGenerator.h);
keys the handler's switch does not name are collapsed into `Other`. -/
inductive Key
  | DownArrow
  | LeftArrow
  | RightArrow
  | UpArrow
  | Insert
  | Home
  | End
  | PageUp
  | PageDown
  | Other
deriving DecidableEq, Repr

/-- Keyboard modifier set (`Modifier`, InputGenerator.h — not under src/; the
handler only queries `none()`, `any()`, `without(Shift)` and the 5-bit mask
`value()` used by `InputMatch`). -/
structure Modifier where
  shift : Bool := false
  alt : Bool := false
  control : Bool := false
  meta : Bool := false
deriving DecidableEq, Repr

/-- Modelled from the spec: the bit layout of `Modifier::value()` (Modifier is
declared outside src/); four distinct low bits, as consumed by
`InputMatch::code()`'s `modifier.value() & 0b1'1111`. -/
def Modifier.value (m : Modifier) : Nat :=
  (if m.shift then 1 else 0) + (if m.alt then 2 else 0)
    + (if m.control then 4 else 0) + (if m.meta then 8 else 0)

/-- `Modifier::none()`. -/
def Modifier.isNone (m : Modifier) : Bool :=
  m.value == 0

/-- `Modifier::any()`. -/
def Modifier.isAny (m : Modifier) : Bool :=
  m.value != 0

/-- `Modifier::without(Modifier::Shift)` — the only `without` the handler uses. -/
def Modifier.withoutShift (m : Modifier) : Modifier :=
  { m with shift := false }

/-- The no-modifier value. -/
def mNone : Modifier := {}

/-- Shift only. -/
def mShift : Modifier := { shift := true }

/-- Control only. -/
def mCtrl : Modifier := { control := true }

/-- `InputMatch::code()` / `operator uint32_t`: `uint32_t(ch << 5) |
uint32_t(modifier.value() & 0b1'1111)`, truncated to 32 bits. -/
def imCode (m : Modifier) (ch : Nat) : Nat :=
  (ch * 32 + m.value % 32) % 4294967296

/-- Calls made on the external `ViInputHandler::Executor` interface, plus the
diagnostic `errorlog()`/`logstore::ErrorLog()` sink (`logError`), recorded as an
event trace. -/
inductive Action
  | moveCursor (motion : ViMotion) (n : Nat)
  | execute (op : ViOperator) (motion : ViMotion) (n : Nat)
  | yank (scope : TextObjectScope) (obj : TextObject)
  | select (scope : TextObjectScope) (obj : TextObject)
  | paste (n : Nat)
  | searchStart
  | updateSearchTerm (term : List Nat)
  | searchDone
  | searchCancel
  | searchCurrentWord
  | reverseSearchCurrentWord
  | jumpToNextMatch (n : Nat)
  | jumpToPreviousMatch (n : Nat)
  | scrollViewport (delta : Int)
  | modeChanged (m : ViMode)
  | logError
deriving DecidableEq, Repr

/-- True for trace entries that are calls on the Executor interface (everything
except the diagnostic log sink). -/
def Action.isExecutorCall : Action → Bool
  | .logError => false
  | _ => true

/-- The handler's mutable fields (ViInputHandler.h): `viMode`, `count`,
`pendingOperator`, `pendingTextObjectScope`, `searchEditMode`, `searchTerm`.
`searchTerm` is the `std::u32string` as a list of code points. -/
structure ViState where
  viMode : ViMode := ViMode.Normal
  count : Nat := 0
  pendingOperator : Option ViOperator := none
  pendingTextObjectScope : Option TextObjectScope := none
  searchEditMode : SearchEditMode := SearchEditMode.Disabled
  searchTerm : List Nat := []
deriving DecidableEq, Repr

/-- `charToTextObject` (ViInputHandler.cpp, anonymous namespace). -/
def charToTextObject (ch : Nat) : Option TextObject :=
  if ch = 34 then some TextObject.DoubleQuotes          -- '"'
  else if ch = 40 then some TextObject.RoundBrackets    -- '('
  else if ch = 60 then some TextObject.AngleBrackets    -- '<'
  else if ch = 91 then some TextObject.SquareBrackets   -- '['
  else if ch = 39 then some TextObject.SingleQuotes     -- '\''
  else if ch = 96 then some TextObject.BackQuotes       -- '`'
  else if ch = 112 then some TextObject.Paragraph       -- 'p'
  else if ch = 119 then some TextObject.Word            -- 'w'
  else if ch = 123 then some TextObject.CurlyBrackets   -- '{'
  else none

/-- `ViInputHandler::setMode`: no-op when the mode is unchanged; otherwise
switches mode, resets `count`/`pendingOperator`/`pendingTextObjectScope`, and
notifies `executor.modeChanged`. -/
def setMode (s : ViState) (theMode : ViMode) : ViState × List Action :=
  if s.viMode = theMode then (s, [])
  else
    ({ s with
        viMode := theMode
        count := 0
        pendingOperator := none
        pendingTextObjectScope := none },
     [Action.modeChanged theMode])

/-- `ViInputHandler::toggleMode`. -/
def toggleMode (s : ViState) (newMode : ViMode) : ViState × List Action :=
  setMode s (if newMode ≠ s.viMode then newMode else ViMode.Normal)

/-- `ViInputHandler::parseCount`: digits with no modifier accumulate a decimal
count; `'0'` while `count == 0` breaks out (not consumed). Returns whether the
character was consumed. -/
def parseCount (s : ViState) (ch : Nat) (modifier : Modifier) : Bool × ViState :=
  if !modifier.isNone then (false, s)
  else if ch = 48 ∧ s.count = 0 then (false, s)
  else if 48 ≤ ch ∧ ch ≤ 57 then
    (true, { s with count := s.count * 10 + (ch - 48) })
  else (false, s)

/-- `ViInputHandler::yank(scope, textObject)`: delegates to the executor, then
resets count and both pending fields. -/
def yank (s : ViState) (scope : TextObjectScope) (textObject : TextObject) :
    ViState × List Action :=
  ({ s with count := 0, pendingOperator := none, pendingTextObjectScope := none },
   [Action.yank scope textObject])

/-- `ViInputHandler::select(scope, textObject)`. -/
def select (s : ViState) (scope : TextObjectScope) (textObject : TextObject) :
    ViState × List Action :=
  ({ s with count := 0, pendingOperator := none, pendingTextObjectScope := none },
   [Action.select scope textObject])

/-- `ViInputHandler::execute(op, motion)`. -/
def execute (s : ViState) (op : ViOperator) (motion : ViMotion) :
    ViState × List Action :=
  ({ s with count := 0, pendingOperator := none, pendingTextObjectScope := none },
   [Action.execute op motion (if s.count = 0 then 1 else s.count)])

/-- `ViInputHandler::startSearch`. -/
def startSearch (s : ViState) : ViState × List Action :=
  ({ s with searchEditMode := SearchEditMode.Enabled, searchTerm := [] },
   [Action.searchStart])

/-- `ViInputHandler::startSearchExternally`. -/
def startSearchExternally (s : ViState) : ViState × List Action :=
  let s1 := { s with searchTerm := ([] : List Nat) }
  if s1.viMode ≠ ViMode.Insert then
    ({ s1 with searchEditMode := SearchEditMode.Enabled }, [Action.searchStart])
  else
    let s2 := { s1 with searchEditMode := SearchEditMode.ExternallyEnabled }
    let r := setMode s2 ViMode.Normal
    (r.1, Action.searchStart :: r.2)

/-- `ViInputHandler::scrollViewport`. -/
def scrollViewport (s : ViState) (delta : Int) : ViState × List Action :=
  (s, [Action.scrollViewport delta])

/-- `ViInputHandler::executePendingOrMoveCursor`: dispatches on
`pendingOperator.value_or(MoveCursor)` — `Yank` only logs ("Implementation
coming") — then resets count and both pending fields and reports handled. -/
def executePendingOrMoveCursor (s : ViState) (motion : ViMotion) :
    Bool × ViState × List Action :=
  let acts : List Action :=
    match s.pendingOperator.getD ViOperator.MoveCursor with
    | ViOperator.MoveCursor =>
        [Action.moveCursor motion (if s.count = 0 then 1 else s.count)]
    | ViOperator.Yank => [Action.logError]
    | ViOperator.Paste => [Action.paste (if s.count = 0 then 1 else s.count)]
    | ViOperator.ReverseSearchCurrentWord => [Action.reverseSearchCurrentWord]
  (true,
   { s with count := 0, pendingOperator := none, pendingTextObjectScope := none },
   acts)

/-- `ViInputHandler::parseModeSwitch` — matched on the unstripped
`InputMatch { modifier, ch }`. -/
def parseModeSwitch (s : ViState) (ch : Nat) (modifier : Modifier) :
    Bool × ViState × List Action :=
  let c := imCode modifier ch
  if c = imCode mCtrl 86 then                      -- Ctrl+'V'
    let r := toggleMode s ViMode.VisualBlock
    (true, r.1, r.2)
  else if c = imCode mShift 86 then                -- Shift+'V'
    let r := toggleMode s ViMode.VisualLine
    (true, r.1, r.2)
  else if c = imCode mNone 97 ∨ c = imCode mNone 105 then  -- 'a' / 'i'
    if s.pendingOperator = none ∧ s.viMode = ViMode.Normal then
      let r := toggleMode s ViMode.Insert
      (true, r.1, r.2)
    else (false, s, [])
  else if c = imCode mNone 118 then                -- 'v'
    let r := toggleMode s ViMode.Visual
    (true, r.1, r.2)
  else (false, s, [])

/-- `ViInputHandler::parseTextObject`: i/a scope prefixes, the
scope+operator text-object commit, the motion table (matched with Shift
stripped), and the trailing text-object lookup. -/
def parseTextObject (s : ViState) (ch : Nat) (modifier : Modifier) :
    Bool × ViState × List Action :=
  let strip := imCode modifier.withoutShift ch
  if (s.viMode ≠ ViMode.Normal ∨ s.pendingOperator ≠ none)
      ∧ strip = imCode mNone 105 then              -- 'i'
    (true, { s with pendingTextObjectScope := some TextObjectScope.Inner }, [])
  else if (s.viMode ≠ ViMode.Normal ∨ s.pendingOperator ≠ none)
      ∧ strip = imCode mNone 97 then               -- 'a'
    (true, { s with pendingTextObjectScope := some TextObjectScope.A }, [])
  else
    match s.pendingTextObjectScope, s.pendingOperator, charToTextObject ch with
    | some scope, some op, some textObject =>
        match op with
        | ViOperator.Yank =>
            let r := yank s scope textObject
            (true, r.1, r.2)
        | _ => (true, s, [Action.logError])
    | _, _, _ =>
      if strip = imCode mCtrl 68 then              -- Ctrl+'D'
        executePendingOrMoveCursor s ViMotion.PageDown
      else if strip = imCode mCtrl 85 then         -- Ctrl+'U'
        executePendingOrMoveCursor s ViMotion.PageUp
      else if strip = imCode mNone 36 then         -- '$'
        executePendingOrMoveCursor s ViMotion.LineEnd
      else if strip = imCode mNone 37 then         -- '%'
        executePendingOrMoveCursor s ViMotion.ParenthesisMatching
      else if strip = imCode mNone 48 then         -- '0'
        executePendingOrMoveCursor s ViMotion.LineBegin
      else if strip = imCode mNone 94 then         -- '^'
        executePendingOrMoveCursor s ViMotion.LineTextBegin
      else if strip = imCode mNone 71 then         -- 'G'
        executePendingOrMoveCursor s ViMotion.FileEnd
      else if strip = imCode mNone 78 then         -- 'N'
        executePendingOrMoveCursor s ViMotion.SearchResultBackward
      else if strip = imCode mNone 98 then         -- 'b'
        executePendingOrMoveCursor s ViMotion.WordBackward
      else if strip = imCode mNone 101 then        -- 'e'
        executePendingOrMoveCursor s ViMotion.WordEndForward
      else if strip = imCode mNone 103 then        -- 'g'
        executePendingOrMoveCursor s ViMotion.FileBegin
      else if strip = imCode mNone 104 then        -- 'h'
        executePendingOrMoveCursor s ViMotion.CharLeft
      else if strip = imCode mNone 106 then        -- 'j'
        executePendingOrMoveCursor s ViMotion.LineDown
      else if strip = imCode mNone 107 then        -- 'k'
        executePendingOrMoveCursor s ViMotion.LineUp
      else if strip = imCode mNone 74 then         -- 'J'
        let r1 := scrollViewport s (-1)
        let r2 := executePendingOrMoveCursor r1.1 ViMotion.LineDown
        (r2.1, r2.2.1, r1.2 ++ r2.2.2)
      else if strip = imCode mNone 75 then         -- 'K'
        let r1 := scrollViewport s 1
        let r2 := executePendingOrMoveCursor r1.1 ViMotion.LineUp
        (r2.1, r2.2.1, r1.2 ++ r2.2.2)
      else if strip = imCode mNone 72 then         -- 'H'
        executePendingOrMoveCursor s ViMotion.PageTop
      else if strip = imCode mNone 76 then         -- 'L'
        executePendingOrMoveCursor s ViMotion.PageBottom
      else if strip = imCode mNone 108 then        -- 'l'
        executePendingOrMoveCursor s ViMotion.CharRight
      else if strip = imCode mNone 110 then        -- 'n'
        executePendingOrMoveCursor s ViMotion.SearchResultForward
      else if strip = imCode mNone 119 then        -- 'w'
        executePendingOrMoveCursor s ViMotion.WordForward
      else if strip = imCode mNone 123 then        -- '\x7b'
        executePendingOrMoveCursor s ViMotion.ParagraphBackward
      else if strip = imCode mNone 124 then        -- '|'
        executePendingOrMoveCursor s ViMotion.ScreenColumn
      else if strip = imCode mNone 125 then        -- '\x7d'
        executePendingOrMoveCursor s ViMotion.ParagraphForward
      else if modifier.isAny then (false, s, [])
      else
        match charToTextObject ch with
        | some textObject =>
            match s.viMode with
            | ViMode.Insert => (true, s, [])
            | ViMode.Normal =>
                match s.pendingTextObjectScope, s.pendingOperator with
                | some scope, some ViOperator.Yank =>
                    let r := yank s scope textObject
                    (true, r.1, r.2)
                | _, _ => (true, s, [])
            | _ =>
                match s.pendingTextObjectScope with
                | some scope =>
                    let r := select s scope textObject
                    (true, r.1, r.2)
                | none => (true, s, [])
        | none => (false, s, [])

/-- `ViInputHandler::handleVisualMode`. -/
def handleVisualMode (s : ViState) (ch : Nat) (modifier : Modifier) :
    ViState × List Action :=
  let r1 := parseModeSwitch s ch modifier
  if r1.1 then (r1.2.1, r1.2.2)
  else
    let r2 := parseCount s ch modifier
    if r2.1 then (r2.2, [])
    else
      match s.pendingTextObjectScope, charToTextObject ch with
      | some scope, some textObject => select s scope textObject
      | _, _ =>
        let c := imCode modifier.withoutShift ch
        if c = imCode mNone 47 then startSearch s                  -- '/'
        else if c = imCode mNone 27 then setMode s ViMode.Normal   -- Escape
        else if c = imCode mCtrl 86 then toggleMode s ViMode.VisualBlock
        else if c = imCode mNone 86 then toggleMode s ViMode.VisualLine
        else if c = imCode mNone 118 then toggleMode s ViMode.Visual
        else if c = imCode mNone 35 then (s, [Action.reverseSearchCurrentWord])
        else if c = imCode mNone 42 then (s, [Action.searchCurrentWord])
        else if c = imCode mNone 89 then execute s ViOperator.Yank ViMotion.FullLine
        else if c = imCode mNone 97 then
          ({ s with pendingTextObjectScope := some TextObjectScope.A }, [])
        else if c = imCode mNone 105 then
          ({ s with pendingTextObjectScope := some TextObjectScope.Inner }, [])
        else if c = imCode mNone 121 then execute s ViOperator.Yank ViMotion.Selection
        else if c = imCode mNone 110 then                          -- 'n'
          (s, [Action.jumpToNextMatch (if s.count = 0 then 1 else s.count)])
        else if c = imCode mShift 78 then                          -- 'N'|Shift (dead: c never carries Shift)
          (s, [Action.jumpToPreviousMatch (if s.count = 0 then 1 else s.count)])
        else
          let r3 := parseTextObject s ch modifier
          (r3.2.1, r3.2.2)

/-- `ViInputHandler::handleNormalMode`. -/
def handleNormalMode (s : ViState) (ch : Nat) (modifier : Modifier) :
    ViState × List Action :=
  let r1 := parseModeSwitch s ch modifier
  if r1.1 then (r1.2.1, r1.2.2)
  else
    let r2 := parseCount s ch modifier
    if r2.1 then (r2.2, [])
    else
      let c := imCode modifier.withoutShift ch
      if c = imCode mNone 47 then startSearch s                    -- '/'
      else if c = imCode mNone 118 then toggleMode s ViMode.Visual -- 'v'
      else if c = imCode mNone 35 then (s, [Action.reverseSearchCurrentWord])
      else if c = imCode mNone 42 then (s, [Action.searchCurrentWord])
      else if c = imCode mNone 112 then                            -- 'p'
        (s, [Action.paste (if s.count = 0 then 1 else s.count)])
      else if c = imCode mNone 110 then                            -- 'n'
        (s, [Action.jumpToNextMatch (if s.count = 0 then 1 else s.count)])
      else if c = imCode mNone 78 then                             -- 'N'
        (s, [Action.jumpToPreviousMatch (if s.count = 0 then 1 else s.count)])
      else if c = imCode mNone 121 then                            -- 'y'
        if s.pendingOperator = none then
          ({ s with pendingOperator := some ViOperator.Yank }, [])
        else if s.pendingOperator = some ViOperator.Yank then
          execute s ViOperator.Yank ViMotion.FullLine
        else ({ s with pendingOperator := none }, [])
      else
        let r3 := parseTextObject s ch modifier
        (r3.2.1, r3.2.2)

/-- `ViInputHandler::handleSearchEditor`. -/
def handleSearchEditor (s : ViState) (ch : Nat) (modifier : Modifier) :
    Bool × ViState × List Action :=
  let c := imCode modifier ch
  if c = imCode mNone 27 then                                      -- Escape
    let s1 := { s with searchTerm := ([] : List Nat) }
    let r :=
      if s1.searchEditMode = SearchEditMode.ExternallyEnabled then
        setMode s1 ViMode.Insert
      else (s1, [])
    (true, { r.1 with searchEditMode := SearchEditMode.Disabled },
     r.2 ++ [Action.searchCancel])
  else if c = imCode mNone 13 then                                 -- Enter
    let r :=
      if s.searchEditMode = SearchEditMode.ExternallyEnabled then
        setMode s ViMode.Insert
      else (s, [])
    (true, { r.1 with searchEditMode := SearchEditMode.Disabled },
     r.2 ++ [Action.searchDone])
  else if c = imCode mNone 8 ∨ c = imCode mNone 127 then           -- Backspace / Delete
    let s1 := { s with searchTerm := s.searchTerm.dropLast }
    (true, s1, [Action.updateSearchTerm s1.searchTerm])
  else if c = imCode mCtrl 76 ∨ c = imCode mCtrl 85 then           -- Ctrl+'L' / Ctrl+'U'
    let s1 := { s with searchTerm := ([] : List Nat) }
    (true, s1, [Action.updateSearchTerm s1.searchTerm])
  else if 32 ≤ ch ∧ modifier.withoutShift.isNone then
    let s1 := { s with searchTerm := s.searchTerm ++ [ch] }
    (true, s1, [Action.updateSearchTerm s1.searchTerm])
  else (true, s, [Action.logError])

/-- `ViInputHandler::sendCharPressEvent`. -/
def sendCharPressEvent (s : ViState) (ch : Nat) (modifier : Modifier) :
    Bool × ViState × List Action :=
  if s.searchEditMode ≠ SearchEditMode.Disabled then
    handleSearchEditor s ch modifier
  else
    match s.viMode with
    | ViMode.Insert => (false, s, [])
    | ViMode.Normal =>
        let r := handleNormalMode s ch modifier
        (true, r.1, r.2)
    | _ =>
        let r := handleVisualMode s ch modifier
        (true, r.1, r.2)

/-- `ViInputHandler::sendKeyPressEvent`. -/
def sendKeyPressEvent (s : ViState) (key : Key) (modifier : Modifier) :
    Bool × ViState × List Action :=
  if s.searchEditMode ≠ SearchEditMode.Disabled then
    (true, s, [Action.logError])
  else if s.viMode = ViMode.Insert then (false, s, [])
  else if modifier.isAny then (true, s, [])
  else
    match key with
    | Key.DownArrow => executePendingOrMoveCursor s ViMotion.LineDown
    | Key.LeftArrow => executePendingOrMoveCursor s ViMotion.CharLeft
    | Key.RightArrow => executePendingOrMoveCursor s ViMotion.CharRight
    | Key.UpArrow => executePendingOrMoveCursor s ViMotion.LineUp
    | Key.Insert =>
        let r := setMode s ViMode.Insert
        (true, r.1, r.2)
    | Key.Home => executePendingOrMoveCursor s ViMotion.FileBegin
    | Key.End => executePendingOrMoveCursor s ViMotion.FileEnd
    | Key.PageUp => executePendingOrMoveCursor s ViMotion.PageUp
    | Key.PageDown => executePendingOrMoveCursor s ViMotion.PageDown
    | Key.Other => (true, s, [])

/-- Feed a list of character events (all with no modifier), accumulating the
emitted trace. -/
def runChars (s : ViState) (chars : List Nat) : ViState × List Action :=
  chars.foldl
    (fun acc ch =>
      let r := sendCharPressEvent acc.1 ch mNone
      (r.2.1, acc.2 ++ r.2.2))
    (s, [])

end Vi

namespace RB

/-- An RGB color, one `Nat` per 8-bit channel (`RGBColor`, Color.h). -/
structure RGBColor where
  red : Nat
  green : Nat
  blue : Nat
deriving DecidableEq, Repr

/-- A foreground/background pair (`RGBColorPair`, Color.h). -/
structure RGBColorPair where
  foreground : RGBColor
  background : RGBColor
deriving DecidableEq, Repr

/-- Modelled from the spec: `RGBColorPair::distinct()` lives in Color.h, which
is not under src/; per spec §4.1 the "final pair is forced distinct
(foreground ≠ background)".  A pair whose sides already differ is returned
unchanged; a collapsed pair has its foreground replaced by the channel-wise
inverse. -/
def RGBColorPair.distinct (p : RGBColorPair) : RGBColorPair :=
  if p.foreground ≠ p.background then p
  else
    { foreground :=
        { red := 255 - p.foreground.red
          green := 255 - p.foreground.green
          blue := 255 - p.foreground.blue }
      background := p.background }

/-- A cell-level configured color (`CellRGBColor`, ColorPalette.h): a literal
RGB value, "current effective foreground", or "current effective background". -/
inductive CellRGBColor
  | CellForeground
  | CellBackground
  | RGB (color : RGBColor)
deriving DecidableEq, Repr

/-- A configured fg/bg pair with blend alphas (`CellRGBColorAndAlphaPair`,
ColorPalette.h).  Alphas are fixed-point weights out of 256 (modelled from the
spec's "blend alpha"; the C++ stores a float). -/
structure CellRGBColorAndAlphaPair where
  foreground : CellRGBColor
  foregroundAlpha : Nat
  background : CellRGBColor
  backgroundAlpha : Nat
deriving DecidableEq, Repr

/-- Cursor color configuration (`CursorColor`, ColorPalette.h). -/
structure CursorColorConfig where
  color : CellRGBColor
  textOverrideColor : CellRGBColor
deriving DecidableEq, Repr

/-- The palette entries the builder reads (`ColorPalette`, ColorPalette.h). -/
structure ColorPalette where
  selection : CellRGBColorAndAlphaPair
  yankHighlight : CellRGBColorAndAlphaPair
  searchHighlight : CellRGBColorAndAlphaPair
  searchHighlightFocused : CellRGBColorAndAlphaPair
  cursor : CursorColorConfig
  defaultBackground : RGBColor
deriving DecidableEq, Repr

/-- Modelled from the spec: `mix(a, b, alpha)` (Color.h, not under src/) blends
two colors channel-wise, weight `alpha/256` for the first color. -/
def mixChannel (a b alpha : Nat) : Nat :=
  (a * alpha + b * (256 - alpha)) / 256

/-- Channel-wise color blend. -/
def mix (a b : RGBColor) (alpha : Nat) : RGBColor :=
  { red := mixChannel a.red b.red alpha
    green := mixChannel a.green b.green alpha
    blue := mixChannel a.blue b.blue alpha }

/-- Pair-wise blend, used for the cursor-over-selection mix
(`mix(cursorColor, selectionColors, 0.25f)`; 0.25 ≡ 64/256). -/
def mixPair (p q : RGBColorPair) (alpha : Nat) : RGBColorPair :=
  { foreground := mix p.foreground q.foreground alpha
    background := mix p.background q.background alpha }

/-- `makeRGBColor` (RenderBufferBuilder.cpp, anonymous namespace): resolve a
configured color against the actual pair. -/
def makeRGBColor (actualColors : RGBColorPair) : CellRGBColor → RGBColor
  | CellRGBColor.CellForeground => actualColors.foreground
  | CellRGBColor.CellBackground => actualColors.background
  | CellRGBColor.RGB color => color

/-- `makeRGBColorPair` (RenderBufferBuilder.cpp): blend each configured side
against the actual pair with its alpha, then force the result distinct. -/
def makeRGBColorPair (actualColors : RGBColorPair)
    (configuredColor : CellRGBColorAndAlphaPair) : RGBColorPair :=
  (RGBColorPair.mk
      (mix (makeRGBColor actualColors configuredColor.foreground)
        actualColors.foreground configuredColor.foregroundAlpha)
      (mix (makeRGBColor actualColors configuredColor.background)
        actualColors.background configuredColor.backgroundAlpha)).distinct

/-- `makeColors` (RenderBufferBuilder.cpp, lines 64-108): the overlay
precedence over a cell's SGR pair.  The inner seven-argument `makeColors` call
(line 75, defined outside src/) that resolves SGR/reverse-video/blink into an
RGB pair is abstracted as the input `sgrColors`. -/
def makeColors (colorPalette : ColorPalette) (sgrColors : RGBColorPair)
    (selected isCursor isHighlighted : Bool) : RGBColorPair :=
  if !selected && !isCursor && !isHighlighted then sgrColors
  else if !isCursor && isHighlighted then
    makeRGBColorPair sgrColors colorPalette.yankHighlight
  else
    let selectionColors :=
      if selected then makeRGBColorPair sgrColors colorPalette.selection
      else sgrColors
    if !isCursor then selectionColors
    else if !selected then
      (RGBColorPair.mk
          (makeRGBColor sgrColors colorPalette.cursor.textOverrideColor)
          (makeRGBColor sgrColors colorPalette.cursor.color)).distinct
    else
      (mixPair
          (RGBColorPair.mk
            (makeRGBColor selectionColors colorPalette.cursor.textOverrideColor)
            (makeRGBColor selectionColors colorPalette.cursor.color))
          selectionColors 64).distinct

/-- `graphemeClusterWidth` (RenderBufferBuilder.cpp, lines 33-41): scan the
non-leading code points for U+FE0F (returning width 2 on a hit), else the
East-Asian width of the base code point.  `unicode::width` is an external
primitive, passed as the oracle `w`; the source asserts the cluster nonempty,
so the base code point is read with a default of 0. -/
def graphemeClusterWidth (w : Nat → Nat) (cluster : List Nat) : Nat :=
  if (cluster.drop 1).contains 0xFE0F then 2 else w (cluster.headD 0)

/-- `CursorShape` (primitives.h). -/
inductive CursorShape
  | Block
  | Rectangle
  | Underscore
  | Bar
deriving DecidableEq, Repr

/-- `RenderCursor` (RenderBuffer.h): screen position, shape, cell width. -/
structure RenderCursor where
  line : Nat
  column : Nat
  shape : CursorShape
  cellWidth : Nat
deriving DecidableEq, Repr

/-- The fields of `RenderCell` (RenderBuffer.h) that the group-run and safety
claims observe; the color/decoration attributes are carried by the color model
above and do not influence run grouping. -/
structure RenderCell where
  codepoints : List Nat := []
  line : Nat := 0
  column : Nat := 0
  width : Nat := 1
  groupStart : Bool := false
  groupEnd : Bool := false
deriving DecidableEq, Repr

/-- A grid cell as the builder reads it (`Cell`): `empty()`, the computed
`customBackground` test (`bg != defaultBackground || !!flags`, abstracted to a
field since the blended colors are opaque here), `width()`, and the
code points. -/
structure ScreenCell where
  empty : Bool
  customBackground : Bool
  width : Nat := 1
  codepoints : List Nat := []
deriving DecidableEq, Repr

/-- The read-only terminal/viewport facts one builder invocation consumes
(spec §6): page size, cursor visibility and position, scroll offset, focus,
IME preedit (already segmented into grapheme clusters — the segmenter is an
external primitive), and the `unicode::width` oracle. -/
structure TermView where
  pageColumns : Nat
  cursorVisible : Bool
  cursorLineVisible : Bool
  cursorLine : Nat
  cursorColumn : Nat
  scrollOffset : Nat
  focused : Bool
  cursorShape : CursorShape
  cursorCellWidth : Nat
  preedit : List (List Nat)
  widthOf : Nat → Nat

/-- `State` (RenderBufferBuilder.h): the two-variant run automaton. -/
inductive RBState
  | Gap
  | Sequence
deriving DecidableEq, Repr

/-- The builder's output buffer and scratch fields: `output.cells`,
`output.cursor`, the run automaton `state`, `isNewLine`, `lineNr`,
`prevWidth`/`prevHasCursor`, `_inputMethodSkipColumns`, `searchPatternOffset`. -/
structure Builder where
  cells : List RenderCell := []
  cursor : Option RenderCursor := none
  state : RBState := RBState.Gap
  isNewLine : Bool := false
  lineNr : Nat := 0
  prevWidth : Nat := 0
  prevHasCursor : Bool := false
  inputMethodSkipColumns : Nat := 0
  searchPatternOffset : Nat := 0
deriving Repr

/-- `output.cells.back().groupEnd = true`, guarded by `!output.cells.empty()`. -/
def markLastGroupEnd : List RenderCell → List RenderCell
  | [] => []
  | [c] => [{ c with groupEnd := true }]
  | c :: rest => c :: markLastGroupEnd rest

/-- `output.cells.back().groupStart = true`, guarded by non-emptiness. -/
def markLastGroupStart : List RenderCell → List RenderCell
  | [] => []
  | [c] => [{ c with groupStart := true }]
  | c :: rest => c :: markLastGroupStart rest

/-- `output.cells.at(i).groupStart = true`.  The source's `.at` throws
`std::out_of_range` for `i ≥ size`; here an out-of-range index leaves the list
unchanged, and the theorems that rely on this marking only use in-range
indices. -/
def markGroupStartAt : List RenderCell → Nat → List RenderCell
  | [], _ => []
  | c :: rest, 0 => { c with groupStart := true } :: rest
  | c :: rest, Nat.succ i => c :: markGroupStartAt rest i

/-- `output.cells[i].groupEnd = true`. -/
def markGroupEndAt : List RenderCell → Nat → List RenderCell
  | [], _ => []
  | c :: rest, 0 => { c with groupEnd := true } :: rest
  | c :: rest, Nat.succ i => c :: markGroupEndAt rest i

/-- `RenderBufferBuilder::renderCursor`: absent when the cursor is hidden or
its line is scrolled out of view; otherwise the screen position (line shifted
by the scroll offset), the focus-dependent shape, and the cell width. -/
def renderCursor (t : TermView) : Option RenderCursor :=
  if !t.cursorVisible || !t.cursorLineVisible then none
  else
    some
      { line := t.cursorLine + t.scrollOffset
        column := t.cursorColumn
        shape := if t.focused then t.cursorShape else CursorShape.Rectangle
        cellWidth := t.cursorCellWidth }

/-- The constructor `RenderBufferBuilder(...)`: resets the output buffer and
stores `output.cursor = renderCursor()`. -/
def mkBuilder (t : TermView) : Builder :=
  { cursor := renderCursor t }

/-- `RenderBufferBuilder::renderUtf8Text` (RenderBufferBuilder.cpp, lines
441-485): one `RenderCell` per grapheme cluster, each sized by
`graphemeClusterWidth`; returns the builder and the total `ColumnCount`
rendered.  The per-cell color computation and the search-pattern matcher touch
only cell attributes/`searchPatternOffset`, never the group markers or the
cell count, and are elided. -/
def renderUtf8TextGo (t : TermView) (line column : Nat) :
    List (List Nat) → Builder → Nat → Builder × Nat
  | [], b, columnCountRendered => (b, columnCountRendered)
  | cluster :: rest, b, columnCountRendered =>
      let width := graphemeClusterWidth t.widthOf cluster
      renderUtf8TextGo t line column rest
        { b with
            cells := b.cells ++
              [{ codepoints := cluster
                 line := line
                 column := column + columnCountRendered
                 width := width }]
            lineNr := line
            prevWidth := 0
            prevHasCursor := false }
        (columnCountRendered + width)

/-- Entry point of the loop: starts with zero columns rendered. -/
def renderUtf8Text (t : TermView) (b : Builder) (line column : Nat)
    (clusters : List (List Nat)) : Builder × Nat :=
  renderUtf8TextGo t line column clusters b 0

/-- `RenderBufferBuilder::renderCell` (RenderBufferBuilder.cpp, lines 488-572):
the IME preedit overlay (rendered when the grid position equals the cursor
position and the preedit is nonempty), the skip of columns consumed by the
preedit, and the Gap/Sequence run automaton.  The screen→grid coordinate
translation is abstracted to a direct comparison against the cursor position,
and the per-cell color compositing (which feeds only the elided attributes)
is not repeated here. -/
def renderCell (t : TermView) (b : Builder) (screenCell : ScreenCell)
    (line column : Nat) : Builder :=
  let atCursor := line = t.cursorLine ∧ column = t.cursorColumn
  let b :=
    if atCursor ∧ t.preedit ≠ [] then
      let b1 := { b with cells := markLastGroupEnd b.cells }
      let r := renderUtf8Text t b1 line column t.preedit
      let skip := r.2
      let b2 :=
        if skip > 0 then
          { r.1 with
              cursor := r.1.cursor.map
                (fun c => { c with column := c.column + skip })
              cells :=
                markLastGroupEnd
                  (markGroupStartAt r.1.cells (r.1.cells.length - skip)) }
        else r.1
      { b2 with state := RBState.Gap, inputMethodSkipColumns := skip }
    else b
  if b.inputMethodSkipColumns > 0 then
    { b with inputMethodSkipColumns := b.inputMethodSkipColumns - 1 }
  else
    let b := { b with prevWidth := screenCell.width, prevHasCursor := atCursor }
    let cellEmpty := screenCell.empty
    let customBackground := screenCell.customBackground
    let b :=
      match b.state with
      | RBState.Gap =>
          if !cellEmpty || customBackground then
            { b with
                state := RBState.Sequence
                cells := markLastGroupStart (b.cells ++
                  [({ codepoints := screenCell.codepoints
                      line := line
                      column := column
                      width := screenCell.width } : RenderCell)]) }
          else b
      | RBState.Sequence =>
          if cellEmpty && !customBackground then
            { b with cells := markLastGroupEnd b.cells, state := RBState.Gap }
          else
            let b := { b with
              cells := b.cells ++
                [({ codepoints := screenCell.codepoints
                    line := line
                    column := column
                    width := screenCell.width } : RenderCell)] }
            if b.isNewLine then { b with cells := markLastGroupStart b.cells }
            else b
    { b with isNewLine := false }

/-- `RenderBufferBuilder::startLine`. -/
def startLine (b : Builder) (line : Nat) : Builder :=
  { b with isNewLine := true, lineNr := line, prevWidth := 0, prevHasCursor := false }

/-- `RenderBufferBuilder::endLine`. -/
def endLine (b : Builder) : Builder :=
  { b with cells := markLastGroupEnd b.cells }

/-- One full per-cell line pass, spec §4.1: `startLine`, `renderCell` on every
column left to right, `endLine`.  (The frame loop driving these per line lives
in Terminal.cpp, outside src/.) -/
def renderLineCells (t : TermView) (line : Nat) :
    List ScreenCell → Nat → Builder → Builder
  | [], _, b => b
  | screenCell :: rest, column, b =>
      renderLineCells t line rest (column + 1) (renderCell t b screenCell line column)

/-- One full per-cell line pass over the columns 0, 1, ... of a line. -/
def renderFullLine (t : TermView) (b : Builder) (line : Nat)
    (screenCells : List ScreenCell) : Builder :=
  endLine (renderLineCells t line screenCells 0 (startLine b line))

/-- The fields of `TrivialLineBuffer` (Line.h) that `renderTrivialLine` reads:
`usedColumns` and the line text, already segmented into grapheme clusters. -/
structure TrivialLineBuffer where
  usedColumns : Nat
  textClusters : List (List Nat)
deriving Repr

/-- `RenderBufferBuilder::renderTrivialLine` (RenderBufferBuilder.cpp, lines
307-366): the simple-line fast path is hard-coded off
(`canRenderViaSimpleLine = false`, a deliberate no-op); the text is rendered
via `renderUtf8Text`, the columns from `min(pageColumns, usedColumns)` up to
the page width are filled with explicit empty cells, and the first/last
emitted cells get `groupStart`/`groupEnd`. -/
def renderTrivialLine (t : TermView) (b : Builder) (lineBuffer : TrivialLineBuffer)
    (lineOffset : Nat) : Builder :=
  let frontIndex := b.cells.length
  let textMargin := min t.pageColumns lineBuffer.usedColumns
  let pageColumnsEnd := t.pageColumns
  let b := { b with searchPatternOffset := 0 }
  let b := (renderUtf8Text t b lineOffset 0 lineBuffer.textClusters).1
  let fills := (List.range (pageColumnsEnd - textMargin)).map
    (fun i => ({ codepoints := []
                 line := lineOffset
                 column := textMargin + i
                 width := 1 } : RenderCell))
  let b := { b with cells := b.cells ++ fills }
  let backIndex := b.cells.length - 1
  { b with cells := markGroupStartAt (markGroupEndAt b.cells backIndex) frontIndex }

/-! Helper lemmas about the builder model. -/

theorem distinct_foreground_ne_background (p : RGBColorPair) :
    p.distinct.foreground ≠ p.distinct.background := by
  unfold RGBColorPair.distinct
  split
  · assumption
  · rename_i h
    rw [ne_eq, not_not] at h
    intro heq
    have hr := congrArg RGBColor.red heq
    have hr2 := congrArg RGBColor.red h
    simp only at hr hr2
    omega

theorem renderUtf8TextGo_cursor (t : TermView) (line column : Nat) :
    ∀ (clusters : List (List Nat)) (b : Builder) (n : Nat),
      (renderUtf8TextGo t line column clusters b n).1.cursor = b.cursor := by
  intro clusters
  induction clusters with
  | nil => intro b n; rfl
  | cons c rest ih => intro b n; exact ih _ _

theorem renderUtf8TextGo_length (t : TermView) (line column : Nat) :
    ∀ (clusters : List (List Nat)) (b : Builder) (n : Nat),
      (renderUtf8TextGo t line column clusters b n).1.cells.length
        = b.cells.length + clusters.length := by
  intro clusters
  induction clusters with
  | nil => intro b n; rfl
  | cons c rest ih =>
      intro b n
      rw [renderUtf8TextGo, ih]
      simp
      omega

theorem markLastGroupEnd_length (cells : List RenderCell) :
    (markLastGroupEnd cells).length = cells.length := by
  induction cells with
  | nil => rfl
  | cons c rest ih =>
      cases rest with
      | nil => rfl
      | cons d tail => simpa [markLastGroupEnd] using ih

theorem markGroupStartAt_length (cells : List RenderCell) :
    ∀ i, (markGroupStartAt cells i).length = cells.length := by
  induction cells with
  | nil => intro i; rfl
  | cons c rest ih =>
      intro i
      cases i with
      | zero => rfl
      | succ j => simpa [markGroupStartAt] using ih j

theorem markGroupEndAt_length (cells : List RenderCell) :
    ∀ i, (markGroupEndAt cells i).length = cells.length := by
  induction cells with
  | nil => intro i; rfl
  | cons c rest ih =>
      intro i
      cases i with
      | zero => rfl
      | succ j => simpa [markGroupEndAt] using ih j

theorem renderCell_cursor_isSome (t : TermView) (b : Builder)
    (screenCell : ScreenCell) (line column : Nat) :
    (renderCell t b screenCell line column).cursor.isSome = b.cursor.isSome := by
  simp only [renderCell, renderUtf8Text]
  by_cases h1 : (line = t.cursorLine ∧ column = t.cursorColumn) ∧ t.preedit ≠ []
  · simp only [if_pos h1]
    by_cases h2 :
        (renderUtf8TextGo t line column t.preedit
          { b with cells := markLastGroupEnd b.cells } 0).2 > 0
    · simp [h2, renderUtf8TextGo_cursor]
    · simp only [if_neg h2]
      simp [Nat.not_lt, Nat.le_zero] at h2
      simp [h2, renderUtf8TextGo_cursor]
      split_ifs <;> rfl
  · simp only [if_neg h1]
    by_cases h3 : b.inputMethodSkipColumns > 0
    · simp [h3]
    · cases hst : b.state <;> simp [h3, hst] <;> split_ifs <;> simp

theorem renderLineCells_cursor_isSome (t : TermView) (line : Nat) :
    ∀ (screenCells : List ScreenCell) (column : Nat) (b : Builder),
      (renderLineCells t line screenCells column b).cursor.isSome
        = b.cursor.isSome := by
  intro screenCells
  induction screenCells with
  | nil => intro column b; rfl
  | cons sc rest ih =>
      intro column b
      rw [renderLineCells, ih, renderCell_cursor_isSome]

theorem renderFullLine_cursor_isSome (t : TermView) (b : Builder) (line : Nat)
    (screenCells : List ScreenCell) :
    (renderFullLine t b line screenCells).cursor.isSome = b.cursor.isSome := by
  unfold renderFullLine endLine
  simp only [renderLineCells_cursor_isSome]
  rfl

end RB

/-! The claims. -/

/-- The concrete frame configuration refuting C1: a two-column page, a visible
block cursor at (0,1), and an IME preedit consisting of the single grapheme
cluster ⟨U+0078, U+FE0F⟩, whose emoji variation selector forces width 2. -/
def c1Term : RB.TermView :=
  { pageColumns := 2
    cursorVisible := true
    cursorLineVisible := true
    cursorLine := 0
    cursorColumn := 1
    scrollOffset := 0
    focused := true
    cursorShape := RB.CursorShape.Block
    cursorCellWidth := 1
    preedit := [[120, 0xFE0F]]
    widthOf := fun _ => 1 }

/-- The line contents for the C1 refutation: a non-empty cell at column 0,
an empty default-background cell at column 1 (the cursor column). -/
def c1Cells : List RB.ScreenCell :=
  [{ empty := false, customBackground := false, width := 1, codepoints := [65] },
   { empty := true, customBackground := false, width := 1, codepoints := [] }]

/-- The builder after rendering that one line. -/
def c1Result : RB.Builder :=
  RB.renderFullLine c1Term (RB.mkBuilder c1Term) 0 c1Cells

/-- C1: for every frame and rendered line, the `groupStart` count equals the
`groupEnd` count and the cells partition into runs each bracketed by exactly
one `groupStart` and one `groupEnd`.  The code violates this: rendering the
IME preedit computes the `groupStart` index as `cells.size() −
inputMethodSkipColumns`, subtracting a column count from a cell count, so a
double-width preedit cluster marks `groupStart` on the wrong cell.  On the
concrete line above, the emitted cells come out as
[(groupStart ∧ groupEnd), (groupEnd only)] — one `groupStart` against two
`groupEnd`s, and the preedit cell's run has no start marker. -/
theorem C1_ime_breaks_group_balance :
    c1Result.cells.map (fun c => (c.groupStart, c.groupEnd))
        = [(true, true), (false, true)]
  ∧ c1Result.cells.countP (fun c => c.groupStart) = 1
  ∧ c1Result.cells.countP (fun c => c.groupEnd) = 2 := by
  decide

/-- C2 counterexample: from Normal mode with a pending count of 3, the
character `'p'` invokes `executor.paste(3)` — a committed action in the
claim's sense — yet leaves `count = 3` instead of resetting it to 0
(`handleNormalMode` calls the executor directly and returns without any
reset). -/
theorem C2_paste_retains_count :
    (Vi.sendCharPressEvent
        ({ viMode := Vi.ViMode.Normal, count := 3 } : Vi.ViState) 112 Vi.mNone).2.2
      = [Vi.Action.paste 3]
  ∧ ¬ (Vi.sendCharPressEvent
        ({ viMode := Vi.ViMode.Normal, count := 3 } : Vi.ViState) 112 Vi.mNone).2.1.count
      = 0 := by
  decide

/-- C2, amended: `count`, `pendingOperator` and `pendingTextObjectScope` are
reset to empty by every commit routed through `setMode` (on an effective mode
change), `yank`, `select`, `execute`, or `executePendingOrMoveCursor`; the
direct executor invocations in the key tables — `'p'`/`'#'`/`'*'`/`'n'`/`'N'`
in Normal mode and `'#'`/`'*'`/`'n'` in the visual modes — leave the whole
handler state, in particular all three fields, unchanged.  (Visual-mode `'N'`
is not a direct invocation: its case label is dead and the event drains into
`executePendingOrMoveCursor`, covered by the fifth conjunct.) -/
theorem C2_commit_paths_reset :
    (∀ (s : Vi.ViState) (m : Vi.ViMode), s.viMode ≠ m →
      (Vi.setMode s m).1.count = 0
        ∧ (Vi.setMode s m).1.pendingOperator = none
        ∧ (Vi.setMode s m).1.pendingTextObjectScope = none)
  ∧ (∀ (s : Vi.ViState) (scope : Vi.TextObjectScope) (obj : Vi.TextObject),
      (Vi.yank s scope obj).1.count = 0
        ∧ (Vi.yank s scope obj).1.pendingOperator = none
        ∧ (Vi.yank s scope obj).1.pendingTextObjectScope = none)
  ∧ (∀ (s : Vi.ViState) (scope : Vi.TextObjectScope) (obj : Vi.TextObject),
      (Vi.select s scope obj).1.count = 0
        ∧ (Vi.select s scope obj).1.pendingOperator = none
        ∧ (Vi.select s scope obj).1.pendingTextObjectScope = none)
  ∧ (∀ (s : Vi.ViState) (op : Vi.ViOperator) (motion : Vi.ViMotion),
      (Vi.execute s op motion).1.count = 0
        ∧ (Vi.execute s op motion).1.pendingOperator = none
        ∧ (Vi.execute s op motion).1.pendingTextObjectScope = none)
  ∧ (∀ (s : Vi.ViState) (motion : Vi.ViMotion),
      (Vi.executePendingOrMoveCursor s motion).2.1.count = 0
        ∧ (Vi.executePendingOrMoveCursor s motion).2.1.pendingOperator = none
        ∧ (Vi.executePendingOrMoveCursor s motion).2.1.pendingTextObjectScope = none)
  ∧ (∀ (s : Vi.ViState) (ch : Nat),
      (ch = 112 ∨ ch = 35 ∨ ch = 42 ∨ ch = 110 ∨ ch = 78) →
      s.searchEditMode = Vi.SearchEditMode.Disabled →
      s.viMode = Vi.ViMode.Normal →
      (Vi.sendCharPressEvent s ch Vi.mNone).2.1 = s)
  ∧ (∀ (s : Vi.ViState) (ch : Nat),
      (ch = 35 ∨ ch = 42 ∨ ch = 110) →
      s.searchEditMode = Vi.SearchEditMode.Disabled →
      (s.viMode = Vi.ViMode.Visual ∨ s.viMode = Vi.ViMode.VisualLine
        ∨ s.viMode = Vi.ViMode.VisualBlock) →
      (Vi.sendCharPressEvent s ch Vi.mNone).2.1 = s) := by
  refine ⟨?_, ?_, ?_, ?_, ?_, ?_, ?_⟩
  · intro s m h
    simp [Vi.setMode, h]
  · intro s scope obj
    simp [Vi.yank]
  · intro s scope obj
    simp [Vi.select]
  · intro s op motion
    simp [Vi.execute]
  · intro s motion
    simp [Vi.executePendingOrMoveCursor]
  · intro s ch hch hsem hmode
    obtain ⟨mode, cnt, pop, pts, sem, term⟩ := s
    simp only at hsem hmode
    subst hsem hmode
    rcases hch with h | h | h | h | h <;> subst h <;>
      simp [Vi.sendCharPressEvent, Vi.handleNormalMode, Vi.parseModeSwitch,
        Vi.parseCount, Vi.imCode, Vi.mNone, Vi.mShift, Vi.mCtrl,
        Vi.Modifier.value, Vi.Modifier.isNone, Vi.Modifier.withoutShift]
  · intro s ch hch hsem hmode
    obtain ⟨mode, cnt, pop, pts, sem, term⟩ := s
    simp only at hsem hmode
    subst hsem
    rcases hmode with h | h | h <;> subst h <;>
      rcases hch with h | h | h <;> subst h <;> cases pts <;>
        simp [Vi.sendCharPressEvent, Vi.handleVisualMode, Vi.parseModeSwitch,
          Vi.parseCount, Vi.charToTextObject, Vi.imCode, Vi.mNone, Vi.mShift,
          Vi.mCtrl, Vi.Modifier.value, Vi.Modifier.isNone,
          Vi.Modifier.withoutShift]

/-- Helper for picking concrete inputs in the C2 witness. -/
def c2State : Vi.ViState :=
  { viMode := Vi.ViMode.Visual, count := 7,
    pendingOperator := some Vi.ViOperator.Yank,
    pendingTextObjectScope := some Vi.TextObjectScope.Inner }

/-- A loaded Normal-mode state for the C2 witness. -/
def c2NormalState : Vi.ViState :=
  { viMode := Vi.ViMode.Normal, count := 9,
    pendingOperator := some Vi.ViOperator.Paste,
    pendingTextObjectScope := some Vi.TextObjectScope.A }

/-- Concrete instantiation of `C2_commit_paths_reset`: the commits reset the
three fields from a fully loaded state, while `'p'` in Normal mode and `'#'`
in Visual mode leave the loaded state untouched. -/
theorem C2_commit_paths_reset_witness :
    ((Vi.setMode c2State Vi.ViMode.Normal).1.count = 0
        ∧ (Vi.setMode c2State Vi.ViMode.Normal).1.pendingOperator = none
        ∧ (Vi.setMode c2State Vi.ViMode.Normal).1.pendingTextObjectScope = none)
  ∧ ((Vi.executePendingOrMoveCursor c2State Vi.ViMotion.LineDown).2.1.count = 0
        ∧ (Vi.executePendingOrMoveCursor c2State Vi.ViMotion.LineDown).2.1.pendingOperator
            = none
        ∧ (Vi.executePendingOrMoveCursor c2State Vi.ViMotion.LineDown).2.1.pendingTextObjectScope
            = none)
  ∧ (Vi.sendCharPressEvent c2NormalState 112 Vi.mNone).2.1 = c2NormalState
  ∧ (Vi.sendCharPressEvent c2State 35 Vi.mNone).2.1 = c2State :=
  ⟨C2_commit_paths_reset.1 c2State Vi.ViMode.Normal (by decide),
   C2_commit_paths_reset.2.2.2.2.1 c2State Vi.ViMotion.LineDown,
   C2_commit_paths_reset.2.2.2.2.2.1 c2NormalState 112 (Or.inl rfl) rfl rfl,
   C2_commit_paths_reset.2.2.2.2.2.2 c2State 35 (Or.inl rfl) rfl (Or.inl rfl)⟩

/-- C3: in the visual modes, an unmodified `'n'` does invoke
`jumpToNextMatch(count ? count : 1)`, but `'N'` (with or without Shift) does
not invoke `jumpToPreviousMatch`: `handleVisualMode` matches on
`InputMatch { modifier.without(Modifier::Shift), ch }`, so its case label
`'N' | Modifier::Shift` can never match (the subject's Shift bit is always
stripped), and the event falls through to `parseTextObject`'s motion table,
which dispatches `moveCursor(SearchResultBackward, count ? count : 1)`
instead. -/
theorem C3_visual_match_jump :
    (Vi.sendCharPressEvent ({ viMode := Vi.ViMode.Visual } : Vi.ViState)
        110 Vi.mNone).2.2 = [Vi.Action.jumpToNextMatch 1]
  ∧ (Vi.sendCharPressEvent ({ viMode := Vi.ViMode.VisualLine } : Vi.ViState)
        110 Vi.mNone).2.2 = [Vi.Action.jumpToNextMatch 1]
  ∧ (Vi.sendCharPressEvent ({ viMode := Vi.ViMode.VisualBlock } : Vi.ViState)
        110 Vi.mNone).2.2 = [Vi.Action.jumpToNextMatch 1]
  ∧ (Vi.sendCharPressEvent ({ viMode := Vi.ViMode.Visual, count := 5 } : Vi.ViState)
        110 Vi.mNone).2.2 = [Vi.Action.jumpToNextMatch 5]
  ∧ (Vi.sendCharPressEvent ({ viMode := Vi.ViMode.Visual } : Vi.ViState)
        78 Vi.mShift).2.2 = [Vi.Action.moveCursor Vi.ViMotion.SearchResultBackward 1]
  ∧ (Vi.sendCharPressEvent ({ viMode := Vi.ViMode.Visual } : Vi.ViState)
        78 Vi.mNone).2.2 = [Vi.Action.moveCursor Vi.ViMotion.SearchResultBackward 1]
  ∧ (Vi.sendCharPressEvent ({ viMode := Vi.ViMode.VisualLine } : Vi.ViState)
        78 Vi.mShift).2.2 = [Vi.Action.moveCursor Vi.ViMotion.SearchResultBackward 1]
  ∧ (Vi.sendCharPressEvent ({ viMode := Vi.ViMode.VisualBlock } : Vi.ViState)
        78 Vi.mShift).2.2 = [Vi.Action.moveCursor Vi.ViMotion.SearchResultBackward 1]
  ∧ Vi.Action.jumpToPreviousMatch 1 ∉
      (Vi.sendCharPressEvent ({ viMode := Vi.ViMode.Visual } : Vi.ViState)
        78 Vi.mShift).2.2 := by
  decide

/-- C4: for every cell colored by the overlay compositor, if the source
(SGR-resolved) pair has distinct foreground and background, so does the
output pair, on every branch of the overlay precedence: the no-overlay branch
returns the source pair unchanged, and every other branch passes through
`RGBColorPair::distinct()`. -/
theorem C4_overlay_keeps_fg_ne_bg (colorPalette : RB.ColorPalette)
    (sgrColors : RB.RGBColorPair) (selected isCursor isHighlighted : Bool)
    (h : sgrColors.foreground ≠ sgrColors.background) :
    (RB.makeColors colorPalette sgrColors selected isCursor isHighlighted).foreground
      ≠ (RB.makeColors colorPalette sgrColors selected isCursor isHighlighted).background := by
  unfold RB.makeColors RB.makeRGBColorPair
  cases selected <;> cases isCursor <;> cases isHighlighted <;>
    first
      | exact h
      | (simp only [Bool.not_true, Bool.not_false, Bool.false_and, Bool.true_and,
          Bool.and_false, Bool.and_true, if_true, if_false, Bool.and_self,
          ite_true, ite_false]
         first
           | exact h
           | exact RB.distinct_foreground_ne_background _)

/-- A concrete palette for the C4 witness. -/
def c4Palette : RB.ColorPalette :=
  { selection :=
      { foreground := RB.CellRGBColor.CellBackground, foregroundAlpha := 256,
        background := RB.CellRGBColor.CellForeground, backgroundAlpha := 256 }
    yankHighlight :=
      { foreground := RB.CellRGBColor.RGB ⟨0, 0, 0⟩, foregroundAlpha := 256,
        background := RB.CellRGBColor.RGB ⟨255, 255, 0⟩, backgroundAlpha := 256 }
    searchHighlight :=
      { foreground := RB.CellRGBColor.CellForeground, foregroundAlpha := 128,
        background := RB.CellRGBColor.RGB ⟨100, 100, 100⟩, backgroundAlpha := 128 }
    searchHighlightFocused :=
      { foreground := RB.CellRGBColor.CellForeground, foregroundAlpha := 128,
        background := RB.CellRGBColor.RGB ⟨200, 100, 100⟩, backgroundAlpha := 128 }
    cursor :=
      { color := RB.CellRGBColor.RGB ⟨50, 50, 50⟩,
        textOverrideColor := RB.CellRGBColor.RGB ⟨50, 50, 50⟩ }
    defaultBackground := ⟨0, 0, 0⟩ }

/-- Concrete instantiation of `C4_overlay_keeps_fg_ne_bg` on the
cursor-over-selection branch, with a cursor configuration that collapses the
pair so that only `distinct()` separates it again. -/
theorem C4_overlay_keeps_fg_ne_bg_witness :
    (RB.RGBColorPair.mk ⟨10, 20, 30⟩ ⟨40, 50, 60⟩).foreground
        ≠ (RB.RGBColorPair.mk ⟨10, 20, 30⟩ ⟨40, 50, 60⟩).background
  ∧ (RB.makeColors c4Palette (RB.RGBColorPair.mk ⟨10, 20, 30⟩ ⟨40, 50, 60⟩)
        true true false).foreground
      ≠ (RB.makeColors c4Palette (RB.RGBColorPair.mk ⟨10, 20, 30⟩ ⟨40, 50, 60⟩)
        true true false).background :=
  ⟨by decide,
   C4_overlay_keeps_fg_ne_bg c4Palette (RB.RGBColorPair.mk ⟨10, 20, 30⟩ ⟨40, 50, 60⟩)
     true true false (by decide)⟩

/-- C5: for a non-empty grapheme cluster, the width is 2 whenever any
non-leading code point is U+FE0F — in particular whenever the trailing code
point of a multi-code-point cluster is U+FE0F — and otherwise it is the
East-Asian width (the external `unicode::width` oracle `w`) of the base code
point. -/
theorem C5_grapheme_cluster_width (w : Nat → Nat) (cluster : List Nat)
    (h : cluster ≠ []) :
    ((cluster.drop 1).contains 0xFE0F = true →
        RB.graphemeClusterWidth w cluster = 2)
  ∧ ((cluster.drop 1).contains 0xFE0F = false →
        RB.graphemeClusterWidth w cluster = w (cluster.headD 0))
  ∧ (2 ≤ cluster.length → cluster.getLast h = 0xFE0F →
        RB.graphemeClusterWidth w cluster = 2) := by
  refine ⟨?_, ?_, ?_⟩
  · intro hc
    unfold RB.graphemeClusterWidth
    rw [hc]
    rfl
  · intro hc
    unfold RB.graphemeClusterWidth
    rw [hc]
    rfl
  · intro hlen hlast
    have hmem : (0xFE0F : Nat) ∈ cluster.drop 1 := by
      cases cluster with
      | nil => simp at hlen
      | cons a rest =>
          cases rest with
          | nil => simp at hlen
          | cons b tail =>
              have hne : b :: tail ≠ ([] : List Nat) := by simp
              have : (b :: tail).getLast hne = 0xFE0F := by
                rw [← hlast]
                exact (List.getLast_cons hne).symm
              rw [← this]
              simp only [List.drop_succ_cons, List.drop_zero]
              exact List.getLast_mem hne
    have hc : (cluster.drop 1).contains 0xFE0F = true :=
      List.elem_eq_true_of_mem hmem
    unfold RB.graphemeClusterWidth
    rw [hc]
    rfl

/-- Concrete instantiation of `C5_grapheme_cluster_width`: the cluster
⟨U+1F602, U+FE0F⟩ has width 2 under an oracle that gives the base code point
width 1, and ⟨U+0041⟩ has the oracle width of `'A'`. -/
theorem C5_grapheme_cluster_width_witness :
    ((([0x1F602, 0xFE0F] : List Nat).drop 1).contains 0xFE0F = true →
        RB.graphemeClusterWidth (fun _ => 1) [0x1F602, 0xFE0F] = 2)
  ∧ ((([0x1F602, 0xFE0F] : List Nat).drop 1).contains 0xFE0F = false →
        RB.graphemeClusterWidth (fun _ => 1) [0x1F602, 0xFE0F]
          = (fun _ => 1) (([0x1F602, 0xFE0F] : List Nat).headD 0))
  ∧ (2 ≤ ([0x1F602, 0xFE0F] : List Nat).length →
      ([0x1F602, 0xFE0F] : List Nat).getLast (by decide) = 0xFE0F →
        RB.graphemeClusterWidth (fun _ => 1) [0x1F602, 0xFE0F] = 2) :=
  C5_grapheme_cluster_width (fun _ => 1) [0x1F602, 0xFE0F] (by decide)

/-- C6: an unmodified digit `'0' + d` accumulates `count := count * 10 + d`
whenever a count is already in progress or the digit is nonzero; an
unmodified `'0'` with no count in progress is not consumed by `parseCount`
and instead dispatches the line-begin motion through the motion table. -/
theorem C6_count_parsing (s : Vi.ViState) (d : Nat) (hd : d ≤ 9)
    (h0 : s.count ≠ 0 ∨ d ≠ 0) :
    Vi.parseCount s (48 + d) Vi.mNone
        = (true, { s with count := s.count * 10 + d })
  ∧ (s.count = 0 → s.pendingOperator = none → s.viMode = Vi.ViMode.Normal →
      s.searchEditMode = Vi.SearchEditMode.Disabled →
      (Vi.sendCharPressEvent s 48 Vi.mNone).2.2
        = [Vi.Action.moveCursor Vi.ViMotion.LineBegin 1]) := by
  constructor
  · unfold Vi.parseCount
    have hmod : (Vi.mNone.isNone : Bool) = true := by decide
    rw [hmod]
    have hcond : ¬ (48 + d = 48 ∧ s.count = 0) := by
      rcases h0 with h | h
      · rintro ⟨-, h2⟩; exact h h2
      · rintro ⟨h1, -⟩; omega
    rw [if_neg hcond, if_pos (by omega : 48 ≤ 48 + d ∧ 48 + d ≤ 57)]
    simp only [Bool.not_true, Bool.false_eq_true, if_false]
    congr 2
    omega
  · intro hcnt hop hmode hsem
    obtain ⟨mode, cnt, pop, pts, sem, term⟩ := s
    simp only at hcnt hop hmode hsem
    subst hcnt hop hmode hsem
    cases pts <;>
      simp [Vi.sendCharPressEvent, Vi.handleNormalMode, Vi.parseModeSwitch,
        Vi.parseCount, Vi.parseTextObject, Vi.executePendingOrMoveCursor,
        Vi.charToTextObject, Vi.imCode, Vi.mNone, Vi.mShift, Vi.mCtrl,
        Vi.Modifier.value, Vi.Modifier.isNone, Vi.Modifier.isAny,
        Vi.Modifier.withoutShift]

/-- Concrete instantiation of `C6_count_parsing`: `'3'` from a zero count sets
count 3, and `'0'` from a Normal-mode zero-count state emits the line-begin
motion. -/
theorem C6_count_parsing_witness :
    Vi.parseCount ({} : Vi.ViState) 51 Vi.mNone
        = (true, { ({} : Vi.ViState) with count := 3 })
  ∧ (({} : Vi.ViState).count = 0 → ({} : Vi.ViState).pendingOperator = none →
      ({} : Vi.ViState).viMode = Vi.ViMode.Normal →
      ({} : Vi.ViState).searchEditMode = Vi.SearchEditMode.Disabled →
      (Vi.sendCharPressEvent ({} : Vi.ViState) 48 Vi.mNone).2.2
        = [Vi.Action.moveCursor Vi.ViMotion.LineBegin 1]) :=
  C6_count_parsing ({} : Vi.ViState) 3 (by decide) (Or.inr (by decide))

/-- C7: while the search editor is active, an unmodified Escape character
clears the search term, disables the sub-mode, switches to Insert mode
exactly when the sub-mode was externally enabled, reports the event handled,
and ends the emitted trace with `searchCancel()` — issued after the term was
already cleared. -/
theorem C7_search_escape (s : Vi.ViState)
    (h : s.searchEditMode ≠ Vi.SearchEditMode.Disabled) :
    (Vi.sendCharPressEvent s 27 Vi.mNone).1 = true
  ∧ (Vi.sendCharPressEvent s 27 Vi.mNone).2.1.searchTerm = []
  ∧ (Vi.sendCharPressEvent s 27 Vi.mNone).2.1.searchEditMode
      = Vi.SearchEditMode.Disabled
  ∧ (Vi.sendCharPressEvent s 27 Vi.mNone).2.1.viMode
      = (if s.searchEditMode = Vi.SearchEditMode.ExternallyEnabled
         then Vi.ViMode.Insert else s.viMode)
  ∧ (Vi.sendCharPressEvent s 27 Vi.mNone).2.2.getLast?
      = some Vi.Action.searchCancel := by
  obtain ⟨mode, cnt, pop, pts, sem, term⟩ := s
  cases sem
  · exact absurd rfl h
  · simp [Vi.sendCharPressEvent, Vi.handleSearchEditor, Vi.setMode,
      Vi.imCode, Vi.mNone, Vi.mCtrl, Vi.Modifier.value]
  · cases mode <;>
      simp [Vi.sendCharPressEvent, Vi.handleSearchEditor, Vi.setMode,
        Vi.imCode, Vi.mNone, Vi.mCtrl, Vi.Modifier.value]

/-- The handler state reached from a fresh Normal-mode state by pressing `'/'`
and then typing `"foo"`. -/
def c7ScenarioState : Vi.ViState :=
  (Vi.runChars ({} : Vi.ViState) [47, 102, 111, 111]).1

/-- Concrete instantiation of `C7_search_escape` at the state reached by `'/'`
then `"foo"`: the stored term is `"foo"` before Escape, and Escape cancels
with the term cleared, ending the search sub-mode (the originating mode was
Normal, so no Insert restore). -/
theorem C7_search_escape_witness :
    c7ScenarioState.searchTerm = [102, 111, 111]
  ∧ c7ScenarioState.searchEditMode ≠ Vi.SearchEditMode.Disabled
  ∧ ((Vi.sendCharPressEvent c7ScenarioState 27 Vi.mNone).1 = true
    ∧ (Vi.sendCharPressEvent c7ScenarioState 27 Vi.mNone).2.1.searchTerm = []
    ∧ (Vi.sendCharPressEvent c7ScenarioState 27 Vi.mNone).2.1.searchEditMode
        = Vi.SearchEditMode.Disabled
    ∧ (Vi.sendCharPressEvent c7ScenarioState 27 Vi.mNone).2.1.viMode
        = (if c7ScenarioState.searchEditMode = Vi.SearchEditMode.ExternallyEnabled
           then Vi.ViMode.Insert else c7ScenarioState.viMode)
    ∧ (Vi.sendCharPressEvent c7ScenarioState 27 Vi.mNone).2.2.getLast?
        = some Vi.Action.searchCancel) :=
  ⟨by decide, by decide, C7_search_escape c7ScenarioState (by decide)⟩

/-- C8: a bare motion dispatched while `pendingOperator = Yank` performs no
executor call (the trace is exactly the diagnostic log entry), resets
`count`, `pendingOperator`, and `pendingTextObjectScope`, and reports the
event handled. -/
theorem C8_yank_bare_motion (s : Vi.ViState) (motion : Vi.ViMotion)
    (h : s.pendingOperator = some Vi.ViOperator.Yank) :
    (Vi.executePendingOrMoveCursor s motion).1 = true
  ∧ (Vi.executePendingOrMoveCursor s motion).2.2 = [Vi.Action.logError]
  ∧ (Vi.executePendingOrMoveCursor s motion).2.2.all
      (fun a => !a.isExecutorCall) = true
  ∧ (Vi.executePendingOrMoveCursor s motion).2.1.count = 0
  ∧ (Vi.executePendingOrMoveCursor s motion).2.1.pendingOperator = none
  ∧ (Vi.executePendingOrMoveCursor s motion).2.1.pendingTextObjectScope = none := by
  simp [Vi.executePendingOrMoveCursor, h, Vi.Action.isExecutorCall]

/-- Concrete instantiation of `C8_yank_bare_motion`: `'y'` then a bare `'j'`
motion from Normal mode logs and resets without any executor call. -/
theorem C8_yank_bare_motion_witness :
    (Vi.executePendingOrMoveCursor
        ({ pendingOperator := some Vi.ViOperator.Yank, count := 4 } : Vi.ViState)
        Vi.ViMotion.LineDown).1 = true
  ∧ (Vi.executePendingOrMoveCursor
        ({ pendingOperator := some Vi.ViOperator.Yank, count := 4 } : Vi.ViState)
        Vi.ViMotion.LineDown).2.2 = [Vi.Action.logError]
  ∧ (Vi.executePendingOrMoveCursor
        ({ pendingOperator := some Vi.ViOperator.Yank, count := 4 } : Vi.ViState)
        Vi.ViMotion.LineDown).2.2.all (fun a => !a.isExecutorCall) = true
  ∧ (Vi.executePendingOrMoveCursor
        ({ pendingOperator := some Vi.ViOperator.Yank, count := 4 } : Vi.ViState)
        Vi.ViMotion.LineDown).2.1.count = 0
  ∧ (Vi.executePendingOrMoveCursor
        ({ pendingOperator := some Vi.ViOperator.Yank, count := 4 } : Vi.ViState)
        Vi.ViMotion.LineDown).2.1.pendingOperator = none
  ∧ (Vi.executePendingOrMoveCursor
        ({ pendingOperator := some Vi.ViOperator.Yank, count := 4 } : Vi.ViState)
        Vi.ViMotion.LineDown).2.1.pendingTextObjectScope = none :=
  C8_yank_bare_motion
    ({ pendingOperator := some Vi.ViOperator.Yank, count := 4 } : Vi.ViState)
    Vi.ViMotion.LineDown rfl

/-- The concrete frame configuration refuting C9: the cursor is hidden
(`cursorCurrentlyVisible()` false, e.g. blinked off or DECTCEM-hidden), its
line is on screen, and a one-cluster IME preedit is pending at the cursor's
grid position. -/
def c9Term : RB.TermView :=
  { pageColumns := 1
    cursorVisible := false
    cursorLineVisible := true
    cursorLine := 0
    cursorColumn := 0
    scrollOffset := 0
    focused := true
    cursorShape := RB.CursorShape.Block
    cursorCellWidth := 1
    preedit := [[97]]
    widthOf := fun _ => 1 }

/-- The builder after rendering the single line of that frame. -/
def c9Result : RB.Builder :=
  RB.renderFullLine c9Term (RB.mkBuilder c9Term) 0
    [{ empty := true, customBackground := false, width := 1, codepoints := [] }]

/-- C9 counterexample: on the frame above the IME branch of `renderCell` is
taken (the rendered grid position equals the cursor position and the preedit
is nonempty), the preedit consumes one column, the preedit cell is emitted —
yet `output.cursor` is `none`, because `renderCursor()` returned `nullopt`
for the hidden cursor.  The source's `output.cursor->position.column += ...`
therefore dereferences an absent optional, contradicting the claim's "even
when the cursor is hidden" clause. -/
theorem C9_ime_with_hidden_cursor :
    RB.renderCursor c9Term = none
  ∧ (0 = c9Term.cursorLine ∧ 0 = c9Term.cursorColumn)
  ∧ c9Term.preedit ≠ []
  ∧ (RB.renderUtf8Text c9Term ({} : RB.Builder) 0 0 c9Term.preedit).2 = 1
  ∧ c9Result.cells.length = 1
  ∧ c9Result.cursor = none := by
  decide

/-- C9, amended: whenever `renderCursor()` returned a value (the cursor is
currently visible and its line is in view), `output.cursor` holds a value
after the constructor and after any sequence of rendered lines — in
particular when the IME preedit overlay advances the reported cursor column.
When the cursor is hidden, `output.cursor` is absent and that advance reads
an absent optional. -/
theorem C9_cursor_present_when_visible (t : RB.TermView)
    (frameLines : List (Nat × List RB.ScreenCell))
    (h1 : t.cursorVisible = true) (h2 : t.cursorLineVisible = true) :
    (frameLines.foldl (fun b p => RB.renderFullLine t b p.1 p.2)
        (RB.mkBuilder t)).cursor.isSome = true := by
  have hstep :
      ∀ (lines : List (Nat × List RB.ScreenCell)) (b : RB.Builder),
        (lines.foldl (fun b p => RB.renderFullLine t b p.1 p.2) b).cursor.isSome
          = b.cursor.isSome := by
    intro lines
    induction lines with
    | nil => intro b; rfl
    | cons p rest ih =>
        intro b
        rw [List.foldl_cons, ih, RB.renderFullLine_cursor_isSome]
  rw [hstep]
  simp [RB.mkBuilder, RB.renderCursor, h1, h2]

/-- The C9 frame with the cursor visible: identical to `c9Term` except for
`cursorVisible`. -/
def c9VisibleTerm : RB.TermView :=
  { pageColumns := 1
    cursorVisible := true
    cursorLineVisible := true
    cursorLine := 0
    cursorColumn := 0
    scrollOffset := 0
    focused := true
    cursorShape := RB.CursorShape.Block
    cursorCellWidth := 1
    preedit := [[97]]
    widthOf := fun _ => 1 }

/-- Concrete instantiation of `C9_cursor_present_when_visible`: with a visible
cursor and the same IME preedit, the cursor descriptor is present after
rendering the same line. -/
theorem C9_cursor_present_when_visible_witness :
    (([(0, [{ empty := true, customBackground := false, width := 1,
              codepoints := [] }])] :
        List (Nat × List RB.ScreenCell)).foldl
      (fun b p => RB.renderFullLine c9VisibleTerm b p.1 p.2)
      (RB.mkBuilder c9VisibleTerm)).cursor.isSome = true :=
  C9_cursor_present_when_visible c9VisibleTerm
    [(0, [{ empty := true, customBackground := false, width := 1,
            codepoints := [] }])] rfl rfl

/-- C10: whenever a trivial line's text yields at least one grapheme cluster
or its `usedColumns` is below the page width, `renderTrivialLine` appends at
least one render cell before writing the final run markers, so the
concluding accesses `output.cells[frontIndex]` and
`output.cells[output.cells.size()-1]` are in bounds. -/
theorem C10_trivial_line_appends (t : RB.TermView) (b : RB.Builder)
    (lineBuffer : RB.TrivialLineBuffer) (lineOffset : Nat)
    (h : lineBuffer.textClusters ≠ [] ∨ lineBuffer.usedColumns < t.pageColumns) :
    b.cells.length < (RB.renderTrivialLine t b lineBuffer lineOffset).cells.length
  ∧ 1 ≤ (RB.renderTrivialLine t b lineBuffer lineOffset).cells.length := by
  have hlen : (RB.renderTrivialLine t b lineBuffer lineOffset).cells.length
      = b.cells.length + lineBuffer.textClusters.length
        + (t.pageColumns - min t.pageColumns lineBuffer.usedColumns) := by
    unfold RB.renderTrivialLine
    simp only [RB.markGroupStartAt_length, RB.markGroupEndAt_length,
      List.length_append, List.length_map, List.length_range,
      RB.renderUtf8Text, RB.renderUtf8TextGo_length]
  rcases h with h | h
  · have hpos : 0 < lineBuffer.textClusters.length := List.length_pos.mpr h
    omega
  · omega

/-- A frame for the C10 witness: a 3-column page, no cursor or preedit
involvement. -/
def c10Term : RB.TermView :=
  { pageColumns := 3
    cursorVisible := true
    cursorLineVisible := true
    cursorLine := 0
    cursorColumn := 0
    scrollOffset := 0
    focused := true
    cursorShape := RB.CursorShape.Block
    cursorCellWidth := 1
    preedit := []
    widthOf := fun _ => 1 }

/-- Concrete instantiation of `C10_trivial_line_appends`: an empty-text
trivial line with `usedColumns = 0` on a 3-column page appends three fill
cells. -/
theorem C10_trivial_line_appends_witness :
    ({} : RB.Builder).cells.length
        < (RB.renderTrivialLine c10Term ({} : RB.Builder)
            { usedColumns := 0, textClusters := [] } 0).cells.length
  ∧ 1 ≤ (RB.renderTrivialLine c10Term ({} : RB.Builder)
            { usedColumns := 0, textClusters := [] } 0).cells.length :=
  C10_trivial_line_appends c10Term ({} : RB.Builder)
    { usedColumns := 0, textClusters := [] } 0 (Or.inr (by decide))
